import Mathlib

/-!
Shallow embedding of the physics-interview-bot application (`src/main.py`).

The application is a Streamlit app driving a multi-turn reflection session
over a fixed 17-topic curriculum, grading the transcript with an external
generation service, and persisting results to a SQLite table.  This file
embeds the pure logic of:

* the grading pipeline `grade_transcript` (lines 110-189), including its
  line-prefix parser, deterministic score recomputation, retry loop and
  fallback results;
* the progress lookup `get_student_topic_progress` (lines 94-108);
* the session start index wraparound (lines 462-470);
* the topic window slice (lines 477 and 523);
* the session-controller step performed by one Streamlit rerun of
  `chat_interface` (lines 547-686) and `complete_interview` (lines 688-721);
* the admin routing and admin-id exclusion (lines 751-755, 330-332, 386).

External effects (the generation service, the wall clock and Streamlit
rendering) are abstracted: generation results are inputs to the functions,
the clock is a field of the machine state, and rendering is ignored except
for the transcript string actually persisted.
-/

namespace PhysicsBot

/-! ## Grading pipeline (`grade_transcript`, main.py lines 110-189) -/

/-- Result of one external generation attempt: either the response text or
the textual form `str(e)` of the raised exception. -/
inductive GenResult where
  | ok (text : String)
  | err (msg : String)
deriving Repr, DecidableEq

/-- Split a character list at every occurrence of `sep`, Python's
`s.split(sep)` for a one-character separator: `"a:b".split(':') = [a, b]`
and `"".split(':') = ['']`. -/
def splitChar (sep : Char) : List Char → List (List Char)
  | [] => [[]]
  | x :: xs =>
    if x = sep then [] :: splitChar sep xs
    else
      match splitChar sep xs with
      | [] => [[x]]
      | p :: ps => (x :: p) :: ps

/-- Python `s.split(sep)` for the one-character separators the code uses
(`'\n'` and `':'`). -/
def pySplit (sep : Char) (s : String) : List String :=
  (splitChar sep s.toList).map List.asString

/-- Python `s.strip()` on a character list: drop leading and trailing
whitespace.  (Python also strips a few rarer control characters; the
strings in play use spaces, tabs and newlines only.) -/
def stripList (l : List Char) : List Char :=
  ((l.dropWhile Char.isWhitespace).reverse.dropWhile Char.isWhitespace).reverse

/-- Python `s.strip()`. -/
def pyStrip (s : String) : String :=
  (stripList s.toList).asString

/-- Python `s.startswith(p)`. -/
def pyStartsWith (s p : String) : Bool :=
  p.toList.isPrefixOf s.toList

/-- Python `s[:n]`. -/
def pyTake (s : String) (n : Nat) : String :=
  (s.toList.take n).asString

/-- Python `s.upper()` (ASCII letters; the admin identifier is ASCII). -/
def pyUpper (s : String) : String :=
  (s.toList.map Char.toUpper).asString

/-- Occurrence of `needle` as a contiguous run of `haystack`. -/
def listContains (haystack needle : List Char) : Bool :=
  needle.isPrefixOf haystack ||
    match haystack with
    | [] => false
    | _ :: t => listContains t needle

/-- Python's `needle in haystack` for strings. -/
def strContains (haystack needle : String) : Bool :=
  listContains haystack.toList needle.toList

/-- The rate-limit test of main.py lines 180 and 225:
`"ResourceExhausted" in str(e) or "429" in str(e)`. -/
def isRateLimitError (msg : String) : Bool :=
  strContains msg "ResourceExhausted" || strContains msg "429"

/-- Python's banker's rounding `round` on an exact rational.  The source
computes `round(correctness*0.4 + understanding*0.4 + explanation*0.2)` on
floats; for integer sub-scores the exact value is an integer multiple of
1/5, never half-way between integers, and the float error is far below the
distance to a rounding boundary, so the exact rational rounding below
agrees with the float computation. -/
def pyRound (x : ℚ) : ℤ :=
  if Int.fract x = 1 / 2 then 2 * round (x / 2) else round x

/-- The mutable parse variables of main.py lines 153-157 (`score`,
`status`, `correctness`, `understanding`, `explanation`). -/
structure RawGrade where
  score : ℤ
  status : String
  correctness : ℤ
  understanding : ℤ
  explanation : ℤ
deriving Repr, DecidableEq

/-- Initial values of the parse variables (lines 153-157). -/
def initRaw : RawGrade :=
  { score := 0, status := "Fail", correctness := 0, understanding := 0, explanation := 0 }

/-- `int(''.join(filter(str.isdigit, seg)))` (e.g. line 162): keep the digit
characters of `seg` and read them as a decimal integer; `none` models the
`ValueError` raised by `int('')` when no digits remain.  (`str.isdigit`
also accepts non-ASCII decimal digits; the transcripts and labels in play
are ASCII.) -/
def digitsValue (seg : String) : Option ℤ :=
  let ds := seg.toList.filter Char.isDigit
  if ds.isEmpty then none
  else some (ds.foldl (fun n c => n * 10 + ((c.toNat : ℤ) - 48)) 0)

/-- `line_stripped.split(':')[1]` — the segment between the first and the
second colon.  Each use site is guarded by a `startswith` check for a label
containing a colon, so index 1 always exists; the default is never used. -/
def colonSegment (l : String) : String :=
  (pySplit ':' l).getD 1 ""

/-- The `str(e)` text of Python's `int('')` ValueError, the only exception
the parse loop itself can raise (a digits-only string is either empty or a
valid integer literal). -/
def intEmptyErrorMsg : String :=
  "invalid literal for int() with base 10: \x27\x27"

/-- One iteration of the parse loop of main.py lines 159-170: strip the
line, dispatch on the label prefix, and either update the matching field
from the digits of the segment after the first colon (raising — modelled
as `.error` — when that segment has no digits) or, for `Status:`, store the
stripped segment. -/
def parseLine (st : RawGrade) (line : String) : Except String RawGrade :=
  let l := pyStrip line
  if pyStartsWith l "Correctness:" then
    match digitsValue (colonSegment l) with
    | some n => .ok { st with correctness := n }
    | none => .error intEmptyErrorMsg
  else if pyStartsWith l "Understanding:" then
    match digitsValue (colonSegment l) with
    | some n => .ok { st with understanding := n }
    | none => .error intEmptyErrorMsg
  else if pyStartsWith l "Explanation:" then
    match digitsValue (colonSegment l) with
    | some n => .ok { st with explanation := n }
    | none => .error intEmptyErrorMsg
  else if pyStartsWith l "Score:" then
    match digitsValue (colonSegment l) with
    | some n => .ok { st with score := n }
    | none => .error intEmptyErrorMsg
  else if pyStartsWith l "Status:" then
    .ok { st with status := pyStrip (colonSegment l) }
  else
    .ok st

/-- The whole parse loop over `result_text.split('\n')` (lines 159-170). -/
def parseResponse (text : String) : Except String RawGrade :=
  (pySplit '\n' text).foldlM parseLine initRaw

/-- The tuple returned by `grade_transcript`:
`(score, status, feedback, correctness, understanding, explanation)`. -/
structure GradeResult where
  score : ℤ
  status : String
  feedback : String
  correctness : ℤ
  understanding : ℤ
  explanation : ℤ
deriving Repr, DecidableEq

/-- The recomputation of main.py lines 172-177: whenever any sub-score is
non-zero (Python truthiness of the parsed ints), override the parsed score
with `round(correctness*0.4 + understanding*0.4 + explanation*0.2)` and the
parsed status with the 60-threshold pass/fail; the returned feedback is the
full response text. -/
def finishGrade (text : String) (st : RawGrade) : GradeResult :=
  if st.correctness ≠ 0 ∨ st.understanding ≠ 0 ∨ st.explanation ≠ 0 then
    let sc := pyRound ((st.correctness : ℚ) * 0.4 + (st.understanding : ℚ) * 0.4
      + (st.explanation : ℚ) * 0.2)
    { score := sc
      status := if 60 ≤ sc then "Pass" else "Fail"
      feedback := text
      correctness := st.correctness
      understanding := st.understanding
      explanation := st.explanation }
  else
    { score := st.score, status := st.status, feedback := text
      correctness := st.correctness, understanding := st.understanding
      explanation := st.explanation }

/-- Fallback of line 185: rate limit persists after the final attempt. -/
def rateLimitFallback : GradeResult :=
  { score := 75, status := "Pass"
    feedback := "Unable to grade due to API limits. Session saved with default passing grade. Your instructor can review the transcript."
    correctness := 0, understanding := 0, explanation := 0 }

/-- Fallback of line 187 for any non-rate-limit exception `e`:
`f"Grading error: {str(e)[:100]}. Session saved with default passing grade."`. -/
def gradingErrorFallback (msg : String) : GradeResult :=
  { score := 75, status := "Pass"
    feedback := "Grading error: " ++ pyTake msg 100 ++ ". Session saved with default passing grade."
    correctness := 0, understanding := 0, explanation := 0 }

/-- Fallback of line 189, after the retry loop (reachable only when the
loop runs zero attempts). -/
def afterLoopFallback : GradeResult :=
  { score := 75, status := "Pass"
    feedback := "Unable to grade after multiple attempts. Session saved with default passing grade."
    correctness := 0, understanding := 0, explanation := 0 }

/-- The retry loop of `grade_transcript` (lines 147-189), with the result
of each external generation attempt supplied as input.  `grade_transcript`
itself, with `max_retries = 3`, corresponds to a three-element list
`[gen₀, gen₁, gen₂]`; `rest.isEmpty` encodes `attempt == max_retries - 1`.
A successful generation is parsed and recomputed inside the same `try`, so
a parse `ValueError` reaches the same `except` handler as a generation
error; either way a rate-limit-looking message retries (sleeping, then
`continue`) until the last attempt and any other message returns the
grading-error fallback at once. -/
def grade_transcript_run : List GenResult → GradeResult
  | [] => afterLoopFallback
  | r :: rest =>
    let outcome : Except String GradeResult :=
      match r with
      | .ok text =>
        match parseResponse text with
        | .ok raw => .ok (finishGrade text raw)
        | .error msg => .error msg
      | .err msg => .error msg
    match outcome with
    | .ok g => g
    | .error msg =>
      if isRateLimitError msg then
        if rest.isEmpty then rateLimitFallback
        else grade_transcript_run rest
      else gradingErrorFallback msg

/-! ## Curriculum (`TOPICS`, main.py lines 436-454) and topic window -/

/-- The fixed 17-topic curriculum (main.py lines 436-454; the same list
appears in `admin_panel`, lines 240-258). -/
def TOPICS : List String :=
  ["Simple Harmonic Motion",
   "Pendulum and Mass Spring",
   "Wave form",
   "Damped oscillation Damped Pendulum",
   "Waves on a string",
   "Standing Waves",
   "Sound Waves",
   "Doppler effect",
   "Musical instruments",
   "Light as a wave",
   "Angular Resolution",
   "Thin film",
   "Polarization",
   "Thermal Physics Black body",
   "Light as a particle",
   "Radioactivity",
   "Relativity"]

/-- The session's topic window: `TOPICS[start:start + 5]` (main.py line 477;
line 523 writes the equivalent `TOPICS[start:min(start + 5, len(TOPICS))]`).
Python slicing clips to the list bounds and never raises. -/
def sessionTopicsFrom (startIndex : Nat) : List String :=
  (TOPICS.drop startIndex).take 5

/-- The wraparound of main.py lines 462-470: the session starts at the
stored progress index, reset to 0 when that index reaches or exceeds the
curriculum length. -/
def initialStartingIndex (progress : Nat) : Nat :=
  if TOPICS.length ≤ progress then 0 else progress

/-! ## Progress store (`interviews` table and `get_student_topic_progress`) -/

/-- One row of the `interviews` table (main.py lines 31-44), as written by
`save_interview` (lines 61-71).  The stored `%Y-%m-%d %H:%M:%S` date
strings compare lexicographically in chronological order; `date` is
modelled as a natural-number timestamp. -/
structure SessionRecord where
  student_id : String
  date : Nat
  score : ℤ
  status : String
  transcript : String
  topic_index : Nat
  correctness : ℤ
  understanding : ℤ
  explanation : ℤ
deriving Repr, DecidableEq

/-- `SELECT ... ORDER BY date DESC LIMIT 1`: a row of maximal date, if any.
SQLite leaves the ordering of equal dates unspecified; this model keeps the
earlier row on ties, and the theorems below assume a unique maximum. -/
def latestRow : List SessionRecord → Option SessionRecord
  | [] => none
  | r :: rs =>
    match latestRow rs with
    | none => some r
    | some m => if m.date < r.date then some r else some m

/-- `get_student_topic_progress` (main.py lines 94-108): the `topic_index`
of the student's most recent row, or 0 when the student has no rows. -/
def get_student_topic_progress (db : List SessionRecord) (student_id : String) : Nat :=
  match latestRow (db.filter (fun r => r.student_id = student_id)) with
  | some r => r.topic_index
  | none => 0

/-! ## Session controller (`chat_interface` / `complete_interview`) -/

/-- One entry of `st.session_state.messages`: a role-tagged turn
(`"user"` or `"assistant"`). -/
structure Msg where
  role : String
  content : String
deriving Repr, DecidableEq

/-- One rendered transcript line (main.py lines 692-695):
`"AI Learning Companion"` for assistant turns, `"Student"` otherwise. -/
def renderMsg (m : Msg) : String :=
  (if m.role = "assistant" then "AI Learning Companion" else "Student") ++ ": " ++ m.content

/-- `"\n\n".join(...)`. -/
def joinSep (sep : String) : List String → String
  | [] => ""
  | [x] => x
  | x :: y :: xs => x ++ sep ++ joinSep sep (y :: xs)

/-- The transcript built by `complete_interview` (main.py lines 692-695). -/
def renderTranscript (ms : List Msg) : String :=
  joinSep "\n\n" (ms.map renderMsg)

/-- The skip marker appended as the participant turn (main.py line 622):
`f"[Student hasn't learned: {skipped_topic} - Not yet covered in class]"`. -/
def skipMessage (topic : String) : String :=
  "[Student hasn\x27t learned: " ++ topic ++ " - Not yet covered in class]"

/-- The transient Streamlit session state of one live session
(`st.session_state`, main.py lines 457-470), together with the persisted
table `db`, the wall clock `now` (abstracted; used only as the saved
record's date) and a ghost counter `gradeCalls` of `grade_transcript`
invocations. -/
structure SessionSt where
  student_id : String
  messages : List Msg
  turn_count : Nat
  interview_complete : Bool
  starting_topic_index : Nat
  current_topic_index : Nat
  db : List SessionRecord
  now : Nat
  gradeCalls : Nat
deriving Repr, DecidableEq

/-- `complete_interview` (main.py lines 688-721): set the completion flag,
render the transcript, grade it (the external generation attempts for the
grading call are the input `gen`), and append one row via `save_interview`
with the session's cumulative topic index. -/
def complete_interview (gen : List GenResult) (s : SessionSt) : SessionSt :=
  let transcript := renderTranscript s.messages
  let g := grade_transcript_run gen
  { s with
    interview_complete := true
    gradeCalls := s.gradeCalls + 1
    db := s.db ++ [{ student_id := s.student_id
                     date := s.now
                     score := g.score
                     status := g.status
                     transcript := transcript
                     topic_index := s.current_topic_index
                     correctness := g.correctness
                     understanding := g.understanding
                     explanation := g.explanation }] }

/-- One user action handled by a Streamlit rerun of `chat_interface`:
submitting free text in the chat box (Answer), the "Haven't Learned This
Yet" button (Skip), or the "Finish Session" button.  `reply` is the
follow-up generation call's outcome: `some text` on success, `none` when
it raises. -/
inductive Event where
  | answer (prompt : String) (reply : Option String)
  | skip (reply : Option String)
  | finish
deriving Repr, DecidableEq

/-- The state update shared by Answer (main.py lines 657-663) and Skip
(lines 622-629): append the participant turn, then increment the turn
counter and the cumulative topic index. -/
def advance (s : SessionSt) (content : String) : SessionSt :=
  { s with
    messages := s.messages ++ [{ role := "user", content := content }]
    turn_count := s.turn_count + 1
    current_topic_index := s.current_topic_index + 1 }

/-- After an appended turn (Answer, lines 665-686; Skip, lines 631-650):
complete the session when the turn counter has reached the window length;
otherwise issue the follow-up generation call, appending the assistant
reply on success and leaving the state as already mutated when the call
raises (the increments above are not rolled back). -/
def stepAfterTurn (gen : List GenResult) (s : SessionSt) (reply : Option String) : SessionSt :=
  if (sessionTopicsFrom s.starting_topic_index).length ≤ s.turn_count then
    complete_interview gen s
  else
    match reply with
    | some text => { s with messages := s.messages ++ [{ role := "assistant", content := text }] }
    | none => s

/-- One Streamlit rerun of `chat_interface` (main.py lines 547-686)
handling one user action.  When the completion flag is set, the rerun
renders results and returns before any button or chat input exists
(line 547's branch ends in `return` at line 613), so every action leaves
the state unchanged.  Otherwise Skip is guarded by
`turn_count < len(session_topics)` (line 619), Finish calls
`complete_interview` directly (lines 652-654), and Answer always appends
and advances (lines 657-663). -/
def step (gen : List GenResult) (s : SessionSt) (e : Event) : SessionSt :=
  if s.interview_complete then s
  else
    match e with
    | .finish => complete_interview gen s
    | .skip reply =>
      if s.turn_count < (sessionTopicsFrom s.starting_topic_index).length then
        let topic := (sessionTopicsFrom s.starting_topic_index).getD s.turn_count ""
        stepAfterTurn gen (advance s (skipMessage topic)) reply
      else s
    | .answer prompt reply =>
      stepAfterTurn gen (advance s prompt) reply

/-! ## Entry routing and admin panel exclusion -/

/-- Where the entry surface sends an entered identifier (main.py lines
751-755): `admin_panel` when its uppercase form is `"ADMIN123"`, the chat
interface otherwise. -/
inductive Route where
  | admin
  | chat (student_id : String)
deriving Repr, DecidableEq

/-- `main`'s dispatch (main.py lines 752-755). -/
def route (student_id : String) : Route :=
  if pyUpper student_id = "ADMIN123" then .admin else .chat student_id

/-- `df['student_id'].unique()`: the distinct values in first-occurrence
order. -/
def uniqueFirstAux (seen : List String) : List String → List String
  | [] => []
  | x :: xs =>
    if x ∈ seen then uniqueFirstAux seen xs
    else x :: uniqueFirstAux (x :: seen) xs

/-- Distinct student identifiers of the table, in first-occurrence order. -/
def uniqueStudentIds (db : List SessionRecord) : List String :=
  uniqueFirstAux [] (db.map (fun r => r.student_id))

/-- The identifiers shown in the admin summary table (main.py lines
329-332): the loop skips any identifier whose uppercase form is
`"ADMIN123"`. -/
def summaryStudentIds (db : List SessionRecord) : List String :=
  (uniqueStudentIds db).filter (fun sid => ¬ pyUpper sid = "ADMIN123")

/-- The identifiers offered in the conversation list (main.py line 386):
`[s for s in df['student_id'].unique() if s.upper() != "ADMIN123"]`. -/
def conversationStudentIds (db : List SessionRecord) : List String :=
  (uniqueStudentIds db).filter (fun sid => ¬ pyUpper sid = "ADMIN123")

/-! ## Helper lemmas for the grading pipeline -/

/-- Recompute consistency, as a predicate on a grading result. -/
def RecomputeSpec (g : GradeResult) : Prop :=
  g.correctness ≠ 0 ∨ g.understanding ≠ 0 ∨ g.explanation ≠ 0 →
    g.score = pyRound ((g.correctness : ℚ) * 0.4 + (g.understanding : ℚ) * 0.4
      + (g.explanation : ℚ) * 0.2) ∧
    (g.status = "Pass" ↔ 60 ≤ g.score)

lemma recomputeSpec_finishGrade (text : String) (raw : RawGrade) :
    RecomputeSpec (finishGrade text raw) := by
  unfold RecomputeSpec finishGrade
  split
  case isTrue hne =>
    intro _
    refine ⟨rfl, ?_⟩
    simp only
    split
    case isTrue hle => exact iff_of_true rfl hle
    case isFalse hle => exact iff_of_false (by decide) hle
  case isFalse hne =>
    intro h
    exact absurd h hne

lemma recomputeSpec_rateLimitFallback : RecomputeSpec rateLimitFallback := by
  intro h
  rcases h with h | h | h <;> simp [rateLimitFallback] at h

lemma recomputeSpec_gradingErrorFallback (msg : String) :
    RecomputeSpec (gradingErrorFallback msg) := by
  intro h
  rcases h with h | h | h <;> simp [gradingErrorFallback] at h

lemma recomputeSpec_afterLoopFallback : RecomputeSpec afterLoopFallback := by
  intro h
  rcases h with h | h | h <;> simp [afterLoopFallback] at h

lemma recomputeSpec_run (rs : List GenResult) : RecomputeSpec (grade_transcript_run rs) := by
  induction rs with
  | nil => exact recomputeSpec_afterLoopFallback
  | cons r rest ih =>
    cases r with
    | ok text =>
      simp only [grade_transcript_run]
      cases hp : parseResponse text with
      | ok raw => exact recomputeSpec_finishGrade text raw
      | error msg =>
        simp only
        split
        · split
          · exact recomputeSpec_rateLimitFallback
          · exact ih
        · exact recomputeSpec_gradingErrorFallback msg
    | err msg =>
      simp only [grade_transcript_run]
      split
      · split
        · exact recomputeSpec_rateLimitFallback
        · exact ih
      · exact recomputeSpec_gradingErrorFallback msg

/-- C1: for every graded result of `grade_transcript` in which at least one
of the three sub-scores is non-zero, the returned score equals
`round(0.4*correctness + 0.4*understanding + 0.2*explanation)` and the
returned status is `"Pass"` exactly when that score is at least 60,
regardless of what the evaluator's response stated on its Score and Status
lines. -/
theorem grade_recomputes_weighted_score (rs : List GenResult)
    (h : (grade_transcript_run rs).correctness ≠ 0 ∨
      (grade_transcript_run rs).understanding ≠ 0 ∨
      (grade_transcript_run rs).explanation ≠ 0) :
    (grade_transcript_run rs).score =
      pyRound (((grade_transcript_run rs).correctness : ℚ) * 0.4
        + ((grade_transcript_run rs).understanding : ℚ) * 0.4
        + ((grade_transcript_run rs).explanation : ℚ) * 0.2) ∧
    ((grade_transcript_run rs).status = "Pass" ↔ 60 ≤ (grade_transcript_run rs).score) :=
  recomputeSpec_run rs h

/-- Witness for C1 at a concrete evaluator response with non-zero
sub-scores and a deliberately inconsistent Score/Status pair. -/
theorem grade_recomputes_weighted_score_witness :
    ((grade_transcript_run [GenResult.ok
        "Correctness: 90\nUnderstanding: 80\nExplanation: 70\nScore: 10\nStatus: Fail"]).correctness ≠ 0 ∨
      (grade_transcript_run [GenResult.ok
        "Correctness: 90\nUnderstanding: 80\nExplanation: 70\nScore: 10\nStatus: Fail"]).understanding ≠ 0 ∨
      (grade_transcript_run [GenResult.ok
        "Correctness: 90\nUnderstanding: 80\nExplanation: 70\nScore: 10\nStatus: Fail"]).explanation ≠ 0) ∧
    ((grade_transcript_run [GenResult.ok
        "Correctness: 90\nUnderstanding: 80\nExplanation: 70\nScore: 10\nStatus: Fail"]).score =
      pyRound (((grade_transcript_run [GenResult.ok
        "Correctness: 90\nUnderstanding: 80\nExplanation: 70\nScore: 10\nStatus: Fail"]).correctness : ℚ) * 0.4
        + ((grade_transcript_run [GenResult.ok
        "Correctness: 90\nUnderstanding: 80\nExplanation: 70\nScore: 10\nStatus: Fail"]).understanding : ℚ) * 0.4
        + ((grade_transcript_run [GenResult.ok
        "Correctness: 90\nUnderstanding: 80\nExplanation: 70\nScore: 10\nStatus: Fail"]).explanation : ℚ) * 0.2) ∧
      ((grade_transcript_run [GenResult.ok
        "Correctness: 90\nUnderstanding: 80\nExplanation: 70\nScore: 10\nStatus: Fail"]).status = "Pass" ↔
        60 ≤ (grade_transcript_run [GenResult.ok
        "Correctness: 90\nUnderstanding: 80\nExplanation: 70\nScore: 10\nStatus: Fail"]).score)) :=
  ⟨by decide, grade_recomputes_weighted_score
    [GenResult.ok "Correctness: 90\nUnderstanding: 80\nExplanation: 70\nScore: 10\nStatus: Fail"]
    (by decide)⟩

/-- Every error the parse loop raises is the `int('')` ValueError. -/
lemma parseLine_error_msg (st : RawGrade) (line : String) (msg : String)
    (h : parseLine st line = .error msg) : msg = intEmptyErrorMsg := by
  simp only [parseLine] at h
  split_ifs at h <;> split at h <;> simp_all

/-- Every error the whole parse loop returns is the `int('')` ValueError. -/
lemma foldlM_parseLine_error_msg (lines : List String) :
    ∀ (st : RawGrade) (msg : String),
      lines.foldlM parseLine st = .error msg → msg = intEmptyErrorMsg := by
  induction lines with
  | nil =>
    intro st msg h
    simp [List.foldlM, pure, Except.pure] at h
  | cons l rest ih =>
    intro st msg h
    rw [List.foldlM_cons] at h
    cases hp : parseLine st l with
    | ok st2 =>
      rw [hp] at h
      exact ih st2 msg h
    | error m =>
      rw [hp] at h
      have h2 : Except.error (ε := String) (α := RawGrade) m = Except.error msg := h
      injection h2 with h3
      rw [← h3]
      exact parseLine_error_msg _ _ _ hp

/-- Every error `parseResponse` returns is the `int('')` ValueError. -/
lemma parseResponse_error_msg (text : String) (msg : String)
    (h : parseResponse text = .error msg) : msg = intEmptyErrorMsg :=
  foldlM_parseLine_error_msg _ _ _ h

/-- C4 counterexample: the claim's two concrete consequences fail on the
code.  `"Score: 85/100"` parses to 85100 (all digits between the first and
second colon concatenated), not 85; and a labeled line with no digits
(`"Score: N/A"`) does not yield 0 for the field — the parse raises, and
`grade_transcript` returns the 75/Pass fallback. -/
theorem parser_digits_counterexample :
    parseResponse "Score: 85/100" =
      Except.ok { score := 85100, status := "Fail", correctness := 0,
                  understanding := 0, explanation := 0 } ∧
    (85100 : ℤ) ≠ 85 ∧
    parseResponse "Score: N/A" = Except.error intEmptyErrorMsg ∧
    grade_transcript_run [GenResult.ok "Score: N/A"] = gradingErrorFallback intEmptyErrorMsg ∧
    (gradingErrorFallback intEmptyErrorMsg).score = 75 ∧
    (gradingErrorFallback intEmptyErrorMsg).correctness = 0 :=
  ⟨rfl, by decide, rfl, rfl, rfl, rfl⟩

/-- C4 (amended): the parser extracts each labeled field by line-prefix
matching over the segment between the first and second colons of the
stripped line, concatenating every digit character of that segment, so
`"Score: 85"` yields 85 but `"Score: 85/100"` yields 85100; a labeled line
whose segment holds no digits raises the `int('')` ValueError — the only
parse error possible — and any response whose parse raises makes
`grade_transcript` return the grading-error fallback (score 75, status
Pass, zero sub-scores) rather than 0 for the field. -/
theorem parser_digit_extraction (text : String) (msg : String) (rest : List GenResult)
    (h : parseResponse text = .error msg) :
    msg = intEmptyErrorMsg ∧
    grade_transcript_run (GenResult.ok text :: rest) = gradingErrorFallback intEmptyErrorMsg ∧
    parseResponse "Score: 85" =
      Except.ok { score := 85, status := "Fail", correctness := 0,
                  understanding := 0, explanation := 0 } ∧
    parseResponse "Score: 85/100" =
      Except.ok { score := 85100, status := "Fail", correctness := 0,
                  understanding := 0, explanation := 0 } := by
  have hmsg : msg = intEmptyErrorMsg := parseResponse_error_msg text msg h
  refine ⟨hmsg, ?_, rfl, rfl⟩
  simp only [grade_transcript_run, h, hmsg]
  have hrl : isRateLimitError intEmptyErrorMsg = false := by decide
  simp [hrl]

/-- Witness for C4's amended theorem at the concrete no-digit response. -/
theorem parser_digit_extraction_witness :
    parseResponse "Score: N/A" = Except.error intEmptyErrorMsg ∧
    (intEmptyErrorMsg = intEmptyErrorMsg ∧
     grade_transcript_run [GenResult.ok "Score: N/A"] = gradingErrorFallback intEmptyErrorMsg ∧
     parseResponse "Score: 85" =
       Except.ok { score := 85, status := "Fail", correctness := 0,
                   understanding := 0, explanation := 0 } ∧
     parseResponse "Score: 85/100" =
       Except.ok { score := 85100, status := "Fail", correctness := 0,
                   understanding := 0, explanation := 0 }) :=
  ⟨rfl, parser_digit_extraction "Score: N/A" intEmptyErrorMsg [] rfl⟩

/-- C5: when all three generation attempts of the grading call raise —
rate-limited to exhaustion, or failing with any other error — the grading
call does not raise but returns a fallback result: score 75, status
`"Pass"`, a feedback string saying the session was saved with a default
grade, and all three sub-scores 0. -/
theorem grade_fallback_on_generation_failure (m0 m1 m2 : String) :
    (grade_transcript_run [.err m0, .err m1, .err m2] = rateLimitFallback ∨
      ∃ m, grade_transcript_run [.err m0, .err m1, .err m2] = gradingErrorFallback m) ∧
    (grade_transcript_run [.err m0, .err m1, .err m2]).score = 75 ∧
    (grade_transcript_run [.err m0, .err m1, .err m2]).status = "Pass" ∧
    (grade_transcript_run [.err m0, .err m1, .err m2]).correctness = 0 ∧
    (grade_transcript_run [.err m0, .err m1, .err m2]).understanding = 0 ∧
    (grade_transcript_run [.err m0, .err m1, .err m2]).explanation = 0 := by
  have hcases : grade_transcript_run [.err m0, .err m1, .err m2] = rateLimitFallback ∨
      ∃ m, grade_transcript_run [.err m0, .err m1, .err m2] = gradingErrorFallback m := by
    simp only [grade_transcript_run]
    by_cases h0 : isRateLimitError m0
    · simp only [h0, if_true, List.isEmpty_cons, if_false]
      by_cases h1 : isRateLimitError m1
      · simp only [h1, if_true, List.isEmpty_cons, if_false]
        by_cases h2 : isRateLimitError m2
        · simp [h2]
        · exact Or.inr ⟨m2, by simp [h2]⟩
      · exact Or.inr ⟨m1, by simp [h1]⟩
    · exact Or.inr ⟨m0, by simp [h0]⟩
  refine ⟨hcases, ?_, ?_, ?_, ?_, ?_⟩ <;>
    rcases hcases with h | ⟨m, h⟩ <;> rw [h] <;> rfl

/-! ## Progress store and curriculum lemmas -/

lemma latestRow_ne_nil (l : List SessionRecord) (hne : l ≠ []) :
    ∃ r, latestRow l = some r := by
  cases l with
  | nil => exact absurd rfl hne
  | cons x xs =>
    simp only [latestRow]
    cases latestRow xs with
    | none => exact ⟨x, rfl⟩
    | some m =>
      by_cases h : m.date < x.date
      · exact ⟨x, by simp [h]⟩
      · exact ⟨m, by simp [h]⟩

lemma latestRow_mem : ∀ (l : List SessionRecord) (r : SessionRecord),
    latestRow l = some r → r ∈ l := by
  intro l
  induction l with
  | nil => intro r h; simp [latestRow] at h
  | cons x xs ih =>
    intro r h
    simp only [latestRow] at h
    cases hx : latestRow xs with
    | none =>
      rw [hx] at h
      injection h with h2
      rw [← h2]
      exact List.mem_cons_self _ _
    | some m =>
      rw [hx] at h
      change (if m.date < x.date then some x else some m) = some r at h
      by_cases hd : m.date < x.date
      · rw [if_pos hd] at h
        injection h with h2
        rw [← h2]
        exact List.mem_cons_self _ _
      · rw [if_neg hd] at h
        injection h with h2
        rw [← h2]
        exact List.mem_cons_of_mem _ (ih _ hx)

lemma latestRow_max_date : ∀ (l : List SessionRecord) (r : SessionRecord),
    latestRow l = some r → ∀ x ∈ l, x.date ≤ r.date := by
  intro l
  induction l with
  | nil => intro r h; simp [latestRow] at h
  | cons y xs ih =>
    intro r h x hx
    simp only [latestRow] at h
    cases hys : latestRow xs with
    | none =>
      rw [hys] at h
      injection h with h2
      subst h2
      rcases List.mem_cons.mp hx with rfl | hmem
      · exact le_refl _
      · exfalso
        obtain ⟨m, hm⟩ := latestRow_ne_nil xs (List.ne_nil_of_mem hmem)
        rw [hm] at hys
        cases hys
    | some m =>
      rw [hys] at h
      change (if m.date < y.date then some y else some m) = some r at h
      by_cases hd : m.date < y.date
      · rw [if_pos hd] at h
        injection h with h2
        subst h2
        rcases List.mem_cons.mp hx with rfl | hmem
        · exact le_refl _
        · exact le_trans (ih m hys x hmem) (le_of_lt hd)
      · rw [if_neg hd] at h
        injection h with h2
        subst h2
        rcases List.mem_cons.mp hx with rfl | hmem
        · exact le_of_not_lt hd
        · exact ih _ hys x hmem

/-- C7: `get_student_topic_progress` returns the `topic_index` of the
chronologically most recent record for the given participant (the unique
row of maximal date among their rows), and 0 when the participant has no
rows. -/
theorem latest_progress_spec (db : List SessionRecord) (student_id : String) :
    (db.filter (fun r => r.student_id = student_id) = [] →
      get_student_topic_progress db student_id = 0) ∧
    (∀ r ∈ db.filter (fun r => r.student_id = student_id),
      (∀ x ∈ db.filter (fun r => r.student_id = student_id), x ≠ r → x.date < r.date) →
      get_student_topic_progress db student_id = r.topic_index) := by
  constructor
  · intro hempty
    unfold get_student_topic_progress
    rw [hempty]
    rfl
  · intro r hr hmax
    unfold get_student_topic_progress
    obtain ⟨m, hm⟩ := latestRow_ne_nil _ (List.ne_nil_of_mem hr)
    rw [hm]
    have hmem := latestRow_mem _ _ hm
    by_cases heq : m = r
    · rw [heq]
    · have hlt := hmax m hmem heq
      have hle := latestRow_max_date _ _ hm r hr
      exact absurd (lt_of_le_of_lt hle hlt) (lt_irrefl _)

/-- Witness for C7 at a concrete two-record history. -/
theorem latest_progress_spec_witness :
    (⟨"S1", 5, 80, "Pass", "t2", 10, 90, 80, 70⟩ : SessionRecord) ∈
      ([⟨"S1", 3, 60, "Pass", "t1", 5, 60, 60, 60⟩,
        ⟨"S1", 5, 80, "Pass", "t2", 10, 90, 80, 70⟩,
        ⟨"S2", 9, 40, "Fail", "t3", 5, 40, 40, 40⟩] : List SessionRecord).filter
        (fun r => r.student_id = "S1") ∧
    get_student_topic_progress
      [⟨"S1", 3, 60, "Pass", "t1", 5, 60, 60, 60⟩,
       ⟨"S1", 5, 80, "Pass", "t2", 10, 90, 80, 70⟩,
       ⟨"S2", 9, 40, "Fail", "t3", 5, 40, 40, 40⟩] "S1" = 10 :=
  ⟨by decide,
    (latest_progress_spec _ "S1").2 ⟨"S1", 5, 80, "Pass", "t2", 10, 90, 80, 70⟩
      (by decide) (by decide)⟩

/-- C8: the topic window is the curriculum slice clipped to the curriculum
bounds and is total: over the 17-topic curriculum a start index of 15
yields exactly 2 topics, and a start index at or past the end yields the
empty window. -/
theorem topic_window_clipping :
    (∀ startIndex : Nat,
      (sessionTopicsFrom startIndex).length = min 5 (TOPICS.length - startIndex)) ∧
    (sessionTopicsFrom 15).length = 2 ∧
    (∀ startIndex : Nat, TOPICS.length ≤ startIndex → sessionTopicsFrom startIndex = []) := by
  refine ⟨?_, by decide, ?_⟩
  · intro startIndex
    simp [sessionTopicsFrom, List.length_take, List.length_drop]
  · intro startIndex h
    unfold sessionTopicsFrom
    rw [List.drop_eq_nil_of_le h]
    rfl

/-- Witness for C8's universally quantified clipping hypothesis at the
out-of-range start index 20. -/
theorem topic_window_clipping_witness :
    TOPICS.length ≤ 20 ∧ sessionTopicsFrom 20 = [] :=
  ⟨by decide, topic_window_clipping.2.2 20 (by decide)⟩

/-- C6: a participant whose stored progress index equals or exceeds the
17-topic curriculum length starts their next session at topic index 0. -/
theorem session_start_wraparound :
    TOPICS.length = 17 ∧
    ∀ progress : Nat, 17 ≤ progress → initialStartingIndex progress = 0 := by
  refine ⟨by decide, ?_⟩
  intro progress h
  unfold initialStartingIndex
  rw [if_pos]
  show TOPICS.length ≤ progress
  have : TOPICS.length = 17 := by decide
  omega

/-- Witness for C6 at the exact curriculum length. -/
theorem session_start_wraparound_witness :
    (17 : Nat) ≤ 17 ∧ initialStartingIndex 17 = 0 :=
  ⟨by decide, session_start_wraparound.2 17 (by decide)⟩

/-! ## Session controller theorems -/

lemma complete_interview_flag (gen : List GenResult) (s : SessionSt) :
    (complete_interview gen s).interview_complete = true := rfl

lemma step_of_complete (gen : List GenResult) (s : SessionSt) (e : Event)
    (h : s.interview_complete = true) : step gen s e = s := by
  simp [step, h]

lemma step_answer_exhausted (gen : List GenResult) (s : SessionSt)
    (prompt : String) (reply : Option String)
    (hc : s.interview_complete = false)
    (hw : (sessionTopicsFrom s.starting_topic_index).length ≤ s.turn_count + 1) :
    step gen s (.answer prompt reply) = complete_interview gen (advance s prompt) := by
  simp only [step, hc, Bool.false_eq_true, if_false]
  unfold stepAfterTurn
  rw [if_pos]
  simpa [advance] using hw

/-- C2: the controller persists at most one record and grades at most once
per session.  A completed session absorbs every further action (no grading
call, no insert); and a turn that exhausts the window followed immediately
by Finish appends exactly one record and performs exactly one grading
call. -/
theorem at_most_once_persistence :
    (∀ (gen : List GenResult) (s : SessionSt) (e : Event),
      s.interview_complete = true → step gen s e = s) ∧
    (∀ (gen gen2 : List GenResult) (s : SessionSt) (prompt : String) (reply : Option String),
      s.interview_complete = false →
      (sessionTopicsFrom s.starting_topic_index).length ≤ s.turn_count + 1 →
      (step gen2 (step gen s (.answer prompt reply)) .finish).db.length = s.db.length + 1 ∧
      (step gen2 (step gen s (.answer prompt reply)) .finish).gradeCalls = s.gradeCalls + 1) := by
  refine ⟨step_of_complete, ?_⟩
  intro gen gen2 s prompt reply hc hw
  rw [step_answer_exhausted gen s prompt reply hc hw,
    step_of_complete gen2 _ _ (complete_interview_flag gen _)]
  constructor
  · simp [complete_interview, advance]
  · simp [complete_interview, advance]

/-- Witness for C2 at a concrete session one turn short of the window. -/
theorem at_most_once_persistence_witness :
    ({ student_id := "S1"
       messages := []
       turn_count := 4
       interview_complete := false
       starting_topic_index := 0
       current_topic_index := 4
       db := []
       now := 0
       gradeCalls := 0 } : SessionSt).interview_complete = false ∧
    (sessionTopicsFrom 0).length ≤ 4 + 1 ∧
    (step []
      (step [] { student_id := "S1", messages := [], turn_count := 4,
                 interview_complete := false, starting_topic_index := 0,
                 current_topic_index := 4, db := [], now := 0, gradeCalls := 0 }
        (.answer "final answer" none))
      .finish).db.length = 0 + 1 :=
  ⟨rfl, by decide,
    (at_most_once_persistence.2 [] []
      { student_id := "S1", messages := [], turn_count := 4,
        interview_complete := false, starting_topic_index := 0,
        current_topic_index := 4, db := [], now := 0, gradeCalls := 0 }
      "final answer" none rfl (by decide)).1⟩

/-- The skip marker the Skip branch appends in state `s`: the bracketed
marker naming `session_topics[turn_count]` (main.py lines 620-622). -/
def currentSkipMarker (s : SessionSt) : String :=
  skipMessage ((sessionTopicsFrom s.starting_topic_index).getD s.turn_count "")

/-- A concrete in-progress session at the start of its window, used by the
counterexamples and witnesses below. -/
def sampleState : SessionSt :=
  { student_id := "S1"
    messages := [{ role := "assistant", content := "Welcome! Tell me about oscillation." }]
    turn_count := 0
    interview_complete := false
    starting_topic_index := 0
    current_topic_index := 0
    db := []
    now := 0
    gradeCalls := 0 }

/-- C3 counterexample: when the follow-up generation call of an Answer
fails, the turn counter and the cumulative topic index do NOT keep their
pre-action values — both were already incremented before the call and are
not rolled back. -/
theorem generation_failure_counterexample :
    sampleState.turn_count = 0 ∧
    sampleState.current_topic_index = 0 ∧
    (step [] sampleState (.answer "hello" none)).turn_count = 1 ∧
    (step [] sampleState (.answer "hello" none)).current_topic_index = 1 ∧
    (1 : Nat) ≠ 0 := by
  refine ⟨rfl, rfl, ?_, ?_, by decide⟩ <;> decide

lemma stepAfterTurn_open (gen : List GenResult) (s : SessionSt)
    (h : s.turn_count < (sessionTopicsFrom s.starting_topic_index).length) :
    stepAfterTurn gen s none = s := by
  unfold stepAfterTurn
  rw [if_neg (Nat.not_le_of_lt h)]

/-- C3 (amended): if the generation call issued during an Answer or Skip
fails mid-window, the session does not complete — no grading call and no
insert occur, the participant's appended message is retained, and Finish
remains available (and then completes the session) — but the turn counter
and the cumulative topic index have already been incremented by the
action, so they do not retain their pre-action values. -/
theorem generation_failure_keeps_session_open
    (gen gen2 : List GenResult) (s : SessionSt) (prompt : String)
    (hc : s.interview_complete = false)
    (hw : s.turn_count + 1 < (sessionTopicsFrom s.starting_topic_index).length) :
    ((step gen s (.answer prompt none)).interview_complete = false ∧
     (step gen s (.answer prompt none)).messages =
       s.messages ++ [{ role := "user", content := prompt }] ∧
     (step gen s (.answer prompt none)).turn_count = s.turn_count + 1 ∧
     (step gen s (.answer prompt none)).current_topic_index = s.current_topic_index + 1 ∧
     (step gen s (.answer prompt none)).db = s.db ∧
     (step gen s (.answer prompt none)).gradeCalls = s.gradeCalls ∧
     (step gen2 (step gen s (.answer prompt none)) .finish).interview_complete = true) ∧
    ((step gen s (.skip none)).interview_complete = false ∧
     (step gen s (.skip none)).messages =
       s.messages ++ [{ role := "user", content := currentSkipMarker s }] ∧
     (step gen s (.skip none)).turn_count = s.turn_count + 1 ∧
     (step gen s (.skip none)).current_topic_index = s.current_topic_index + 1 ∧
     (step gen s (.skip none)).db = s.db ∧
     (step gen s (.skip none)).gradeCalls = s.gradeCalls ∧
     (step gen2 (step gen s (.skip none)) .finish).interview_complete = true) := by
  have hanswer : step gen s (.answer prompt none) = advance s prompt := by
    simp only [step, hc, Bool.false_eq_true, if_false]
    exact stepAfterTurn_open gen (advance s prompt) (by simpa [advance] using hw)
  have hskip : step gen s (.skip none) = advance s (currentSkipMarker s) := by
    simp only [step, hc, Bool.false_eq_true, if_false]
    rw [if_pos (Nat.lt_of_succ_lt hw)]
    exact stepAfterTurn_open gen _ (by simpa [advance] using hw)
  constructor
  · rw [hanswer]
    refine ⟨by simp [advance, hc], rfl, rfl, rfl, rfl, rfl, ?_⟩
    simp [step, advance, hc, complete_interview]
  · rw [hskip]
    refine ⟨by simp [advance, hc], rfl, rfl, rfl, rfl, rfl, ?_⟩
    simp [step, advance, hc, complete_interview]

/-- Witness for C3's amended theorem at a concrete session and failing
generation call. -/
theorem generation_failure_keeps_session_open_witness :
    sampleState.interview_complete = false ∧
    sampleState.turn_count + 1 < (sessionTopicsFrom sampleState.starting_topic_index).length ∧
    (step [] sampleState (.answer "my answer" none)).interview_complete = false ∧
    (step [] sampleState (.answer "my answer" none)).turn_count = sampleState.turn_count + 1 :=
  ⟨rfl, by decide,
    ((generation_failure_keeps_session_open [] [] sampleState "my answer"
      rfl (by decide)).1).1,
    (((generation_failure_keeps_session_open [] [] sampleState "my answer"
      rfl (by decide)).1).2.2).1⟩

/-- C9: within the window, Skip performs exactly the state update of
Answer with the bracketed skip marker naming the current topic as the
appended participant content; and in the rendered transcript that marker
appears as a participant-role (`Student:`) line. -/
theorem skip_is_answer_with_marker :
    (∀ (gen : List GenResult) (s : SessionSt) (reply : Option String),
      s.turn_count < (sessionTopicsFrom s.starting_topic_index).length →
      step gen s (.skip reply) = step gen s (.answer (currentSkipMarker s) reply)) ∧
    (∀ topic : String,
      renderMsg { role := "user", content := skipMessage topic } =
        "Student: " ++ skipMessage topic) := by
  constructor
  · intro gen s reply hlt
    by_cases hc : s.interview_complete
    · rw [step_of_complete gen s _ hc, step_of_complete gen s _ hc]
    · simp only [step, hc, Bool.false_eq_true, if_false]
      rw [if_pos hlt]
      rfl
  · intro topic
    rfl

/-- Witness for C9 at a concrete in-progress session. -/
theorem skip_is_answer_with_marker_witness :
    sampleState.turn_count < (sessionTopicsFrom sampleState.starting_topic_index).length ∧
    step [] sampleState (.skip none) =
      step [] sampleState (.answer (currentSkipMarker sampleState) none) :=
  ⟨by decide, skip_is_answer_with_marker.1 [] sampleState none (by decide)⟩

/-! ## Entry routing theorems -/

/-- C10: an entered identifier whose uppercase form is `"ADMIN123"` —
the match is case-insensitive, e.g. `"admin123"` or `"Admin123"` — routes
to the admin panel instead of starting a session, and any such identifier
is excluded from both the admin summary table and the conversation list. -/
theorem admin_identifier_routing :
    (∀ sid : String, pyUpper sid = "ADMIN123" → route sid = Route.admin) ∧
    (∀ sid : String, ¬ pyUpper sid = "ADMIN123" → route sid = Route.chat sid) ∧
    (∀ (db : List SessionRecord) (sid : String), pyUpper sid = "ADMIN123" →
      sid ∉ summaryStudentIds db ∧ sid ∉ conversationStudentIds db) ∧
    route "admin123" = Route.admin ∧
    route "Admin123" = Route.admin ∧
    route "student7" = Route.chat "student7" := by
  refine ⟨?_, ?_, ?_, by decide, by decide, by decide⟩
  · intro sid h
    simp [route, h]
  · intro sid h
    simp [route, h]
  · intro db sid h
    constructor
    · intro hmem
      have := (List.mem_filter.mp hmem).2
      simp [h] at this
    · intro hmem
      have := (List.mem_filter.mp hmem).2
      simp [h] at this

/-- Witness for C10 at the concrete identifier `"admin123"` and a store
holding a record under `"Admin123"`. -/
theorem admin_identifier_routing_witness :
    pyUpper "admin123" = "ADMIN123" ∧
    "admin123" ∉ summaryStudentIds
      [⟨"Admin123", 1, 75, "Pass", "t", 5, 0, 0, 0⟩,
       ⟨"admin123", 2, 75, "Pass", "t", 5, 0, 0, 0⟩] :=
  ⟨by decide,
    (admin_identifier_routing.2.2.1
      [⟨"Admin123", 1, 75, "Pass", "t", 5, 0, 0, 0⟩,
       ⟨"admin123", 2, 75, "Pass", "t", 5, 0, 0, 0⟩]
      "admin123" (by decide)).1⟩

end PhysicsBot
